import Mathlib

/-!
Verification development for the `oellm` evaluation-scheduling core
(`src/oellm/main.py` and `src/oellm/container_utils.py`).

The Python code is shallowly embedded as executable Lean definitions:

* `process_model_paths` embeds `_process_model_paths` (main.py, lines 130-210),
  including the fact that the Python accumulator list `model_paths` is created
  once, before the loop over the input references, and the very same list
  object is stored as the dictionary value for every key; the observable
  mapping therefore assigns to every key the final accumulated list, and the
  per-iteration emptiness test for the warning inspects the accumulated list.
* `ensure_singularity_image` embeds the function of the same name in
  `container_utils.py` as a function over an oracle world describing the
  outcomes of the external fetch (Hugging Face Hub download plus copy and
  rename into place) and the external `singularity build` command.
* `schedule_evals` embeds the scheduling function of the same name in
  `main.py`, from the point where the two input modes are dispatched
  (the logging/cluster-env/image prelude is environment setup outside the
  scheduling core).  External effects (queue query, run-directory creation,
  CSV persistence, sbatch rendering and invocation) are recorded in a
  `SchedResult` effect record.

File-system contents, network outcomes and subprocess outcomes are supplied
by oracle records (`Fs`, `SchedEnv`, `EnsureWorld`); everything else is
computed exactly as the source computes it.
-/

namespace Oellm

/-- Suffix appended when the final path component does not contain `hf`. -/
def slashHfStr : String := "/hf"

/-- Split of a character list at every occurrence of the character `c`,
keeping empty pieces, with `cur` the reversed current piece. -/
def splitCharAux (c : Char) : List Char → List Char → List (List Char)
  | [], cur => [cur.reverse]
  | x :: xs, cur =>
    if x == c then cur.reverse :: splitCharAux c xs [] else splitCharAux c xs (x :: cur)

/-- Python `s.split(sep)` for a one-character separator `sep`: every
occurrence separates, empty pieces are kept. -/
def splitChar (c : Char) (s : String) : List String :=
  (splitCharAux c s.toList []).map (fun l => String.mk l)

/-- Whether `pat` is a prefix of the character list. -/
def charsHavePre (pat : List Char) : List Char → Bool
  | [] => pat.isEmpty
  | c :: cs =>
    match pat with
    | [] => true
    | p :: ps => p == c && charsHavePre ps cs

/-- Whether `pat` occurs as a contiguous sublist: the Python substring test
`pat in s`. -/
def charsContain (pat : List Char) : List Char → Bool
  | [] => pat.isEmpty
  | c :: cs => charsHavePre pat (c :: cs) || charsContain pat cs

/-- The two characters of the substring the source looks for in the final
path component. -/
def hfChars : List Char := ['h', 'f']

/-- Last path component, modelling `Path(p).name` for paths without a
trailing separator. -/
def pathName (p : String) : String :=
  (splitChar '/' p).getLastD p

/-- The Python test `"hf" in Path(model).name`. -/
def nameContainsHf (s : String) : Bool :=
  charsContain hfChars (pathName s).toList

/-- Modifier-delimiter test, modelling `"," in model`. -/
def hasComma (s : String) : Bool :=
  s.toList.any (fun c => c == ',')

/-- Oracle for the file system and the Hugging Face Hub, supplying exactly
the observations `_process_model_paths` makes:
`isDir p` is `Path(p).exists() and Path(p).is_dir()`,
`hasSafetensors p` is `any(Path(p).glob("*.safetensors"))`,
`subdirs p` is the entries produced by `Path(p).glob("*")` in traversal
order, and `downloadOk m` is whether `snapshot_download` for the repository
id (and optional revision pin) parsed from the reference string `m`
succeeds. -/
structure Fs where
  isDir : String → Bool
  hasSafetensors : String → Bool
  subdirs : String → List String
  downloadOk : String → Bool

/-- What the loop body of `_process_model_paths` appends to the shared
accumulator for one reference; `Except.error` models the uncaught
`snapshot_download` exception in the branch for remote identifiers without a
modifier delimiter (main.py lines 194-203, which have no `try`). -/
def contribExc (fs : Fs) (m : String) : Except String (List String) :=
  if fs.isDir m then
    Except.ok
      ((if fs.hasSafetensors m then [m] else []) ++
        (let base := if nameContainsHf m then m else m ++ slashHfStr
         (fs.subdirs base).filter (fun d => fs.isDir d && fs.hasSafetensors d)))
  else if hasComma m then
    Except.ok (if fs.downloadOk m then [m] else [])
  else if fs.downloadOk m then
    Except.ok [m]
  else
    Except.error m

/-- The loop of `_process_model_paths`: `acc` is the shared accumulator list
`model_paths`.  Returns the final accumulator together with the references for
which the `if not model_paths` warning fired (in loop order). -/
def pmpGo (fs : Fs) : List String → List String → Except String (List String × List String)
  | [], acc => Except.ok (acc, [])
  | m :: rest, acc =>
    match contribExc fs m with
    | Except.error e => Except.error e
    | Except.ok c =>
      let acc2 := acc ++ c
      match pmpGo fs rest acc2 with
      | Except.error e => Except.error e
      | Except.ok (accF, warns) =>
        Except.ok (accF, (if acc2.isEmpty then [m] else []) ++ warns)

/-- First-occurrence deduplication, modelling Python dict key insertion order
(and `pandas.Series.unique`). -/
def uniqueFirstAux : List String → List String → List String
  | [], _ => []
  | x :: xs, seen =>
    if x ∈ seen then uniqueFirstAux xs seen else x :: uniqueFirstAux xs (x :: seen)

/-- First-occurrence deduplication of a list of strings. -/
def uniqueFirst (l : List String) : List String :=
  uniqueFirstAux l []

/-- Embedding of `_process_model_paths`.  Because every dictionary value is
the same mutated list object, the observable result maps every key to the
final accumulated list `accF`.  The second component is the list of
references for which the zero-results warning was emitted. -/
def process_model_paths (fs : Fs) (models : List String) :
    Except String (List (String × List String) × List String) :=
  match pmpGo fs models [] with
  | Except.error e => Except.error e
  | Except.ok (accF, warns) =>
    Except.ok ((uniqueFirst models).map (fun m => (m, accF)), warns)

deriving instance DecidableEq for Except

/-- Boolean success test for `Except`. -/
def exOk {ε α : Type} : Except ε α → Bool
  | Except.ok _ => true
  | Except.error _ => false

/-! Container image acquisition (`container_utils.ensure_singularity_image`). -/

/-- Outcome of the remote-fetch stage (hf_hub_download plus copy to a
temporary path and rename into place, all inside one `try`):
`ok` means the whole stage succeeded and the image was installed;
`hubError` is an `HfHubDownloadError` raised by the download itself;
`otherError b` is any other exception, with `b` recording whether it was
raised after the temporary copy target had been created. -/
inductive FetchOutcome where
  | ok
  | hubError
  | otherError (duringCopy : Bool)
deriving DecidableEq, Repr

/-- Outcome of the external `singularity build` command: `ok` is exit
status zero, `fail` is a non-zero exit (`CalledProcessError`). -/
inductive BuildOutcome where
  | ok
  | fail
deriving DecidableEq, Repr

/-- Oracle world for one `ensure_singularity_image` call. -/
structure EnsureWorld where
  destExists : Bool
  force : Bool
  fetch : FetchOutcome
  build : BuildOutcome
deriving DecidableEq, Repr

/-- Observable effects of one `ensure_singularity_image` call.
`raised` is whether an exception propagated to the caller;
`destPresent` is whether the destination path holds an artifact afterwards;
`installedViaRename` is whether this call installed the artifact by renaming
a fully written temporary file over the destination. -/
structure EnsureOutcome where
  raised : Bool
  destPresent : Bool
  fetchAttempted : Bool
  buildAttempted : Bool
  buildTmpLeft : Bool
  fetchTmpLeft : Bool
  installedViaRename : Bool
deriving DecidableEq, Repr

/-- Embedding of `container_utils.ensure_singularity_image`:
return immediately when the destination exists (unless forced); otherwise try
the Hub fetch, falling through to the local build on any fetch exception; on
build failure delete the build temporary and re-raise. -/
def ensure_singularity_image (w : EnsureWorld) : EnsureOutcome :=
  if w.destExists && !w.force then
    { raised := false, destPresent := true, fetchAttempted := false,
      buildAttempted := false, buildTmpLeft := false, fetchTmpLeft := false,
      installedViaRename := false }
  else
    match w.fetch with
    | FetchOutcome.ok =>
      { raised := false, destPresent := true, fetchAttempted := true,
        buildAttempted := false, buildTmpLeft := false, fetchTmpLeft := false,
        installedViaRename := true }
    | f =>
      let ftl : Bool := match f with
        | FetchOutcome.otherError true => true
        | _ => false
      match w.build with
      | BuildOutcome.ok =>
        { raised := false, destPresent := true, fetchAttempted := true,
          buildAttempted := true, buildTmpLeft := false, fetchTmpLeft := ftl,
          installedViaRename := true }
      | BuildOutcome.fail =>
        { raised := true, destPresent := w.destExists, fetchAttempted := true,
          buildAttempted := true, buildTmpLeft := false, fetchTmpLeft := ftl,
          installedViaRename := false }

/-- Name of a temporary file used by `ensure_singularity_image`, abstracted
to its determining data: the fetch path writes to
`sif_path.with_suffix(".tmp")`, a name determined by the destination path
alone, while the build path writes to a `NamedTemporaryFile` in the
destination directory, whose name is freshly generated by the operating
system for each call (`fresh` is that per-call token). -/
inductive TmpName where
  | fetchTmp (sifStem : String)
  | buildTmp (fresh : Nat)
deriving DecidableEq, Repr

/-- The temporary file into which one `ensure_singularity_image` call writes
the artifact it then renames over the destination (`none` when the call
installs nothing). -/
def installTmpUsed (w : EnsureWorld) (sifStem : String) (fresh : Nat) : Option TmpName :=
  if w.destExists && !w.force then none
  else
    match w.fetch with
    | FetchOutcome.ok => some (TmpName.fetchTmp sifStem)
    | _ =>
      match w.build with
      | BuildOutcome.ok => some (TmpName.buildTmp fresh)
      | BuildOutcome.fail => none

/-! Scheduling (`main.schedule_evals`, from the input-mode dispatch on). -/

/-- One row of the job matrix: the three fixed columns of the generative
cross product and the required columns of an explicit CSV table. -/
structure Row where
  model_path : String
  task_path : String
  n_shot : Int
deriving DecidableEq, Repr

/-- The `n_shot` argument: a single integer or a list of integers. -/
inductive NShot where
  | single (n : Int)
  | ofList (ns : List Int)
deriving DecidableEq, Repr

/-- The shot list used by the cross product: a single value becomes a
one-element list. -/
def NShot.toShotList : NShot → List Int
  | NShot.single n => [n]
  | NShot.ofList ns => ns

/-- Python truthiness of the `n_shot` argument: `0` and `[]` are falsy. -/
def NShot.truthy : NShot → Bool
  | NShot.single n => decide (n ≠ 0)
  | NShot.ofList ns => !ns.isEmpty

/-- Python truthiness of an optional string argument: absent and empty are
falsy. -/
def optStrTruthy : Option String → Bool
  | none => false
  | some s => !s.isEmpty

/-- Python truthiness of the optional `n_shot` argument. -/
def optNShotTruthy : Option NShot → Bool
  | none => false
  | some ns => ns.truthy

/-- Content of the CSV file named by `eval_csv_path`:
whether `{model_path, task_path, n_shot}` is a subset of its columns, and its
rows. -/
structure CsvData where
  hasRequiredCols : Bool
  rows : List Row

/-- Outcome of the `sbatch` invocation: success, non-zero exit
(`CalledProcessError`), or binary absent (`FileNotFoundError`). -/
inductive SbatchOutcome where
  | ok
  | calledProcessError
  | fileNotFound
deriving DecidableEq, Repr

/-- Environment oracle for one `schedule_evals` invocation: the file-system
and Hub oracle, the parsed CSV table, `QUEUE_LIMIT`, the parsed `squeue`
count, and the outcome of the `sbatch` invocation. -/
structure SchedEnv where
  fs : Fs
  csv : CsvData
  queueLimit : Int
  queueLoad : Int
  sbatchOutcome : SbatchOutcome

/-- Arguments of `schedule_evals` relevant to scheduling. -/
structure SchedArgs where
  models : Option String
  tasks : Option String
  n_shot : Option NShot
  eval_csv_path : Option String
  download_only : Bool

/-- Errors `schedule_evals` raises: the two `ValueError` configuration
errors, the missing-CSV-columns error, and a propagated model-download
exception. -/
inductive SchedError where
  | exclusiveArgs
  | missingArgs
  | missingCsvCols
  | downloadError (msg : String)
deriving DecidableEq, Repr

/-- Effect record of one `schedule_evals` invocation.  `savedCsv` is the
matrix persisted to `jobs.csv` (if any); the remaining fields record whether
each externally visible step happened.  Nothing in the source ever deletes a
persisted artifact, so a `true`/`some` field is the final on-disk state. -/
structure SchedResult where
  error : Option SchedError := none
  resolutionPerformed : Bool := false
  preDownloaded : Bool := false
  queueQueried : Bool := false
  runDirCreated : Bool := false
  savedCsv : Option (List Row) := none
  sbatchScriptWritten : Bool := false
  sbatchInvoked : Bool := false
  submissionLoggedError : Bool := false
  submissionLoggedSuccess : Bool := false
deriving DecidableEq, Repr

/-- Result of an invocation that raised before building a matrix. -/
def errResult (e : SchedError) (resolved : Bool) : SchedResult :=
  { error := some e, resolutionPerformed := resolved }

/-- Tail of `schedule_evals` after the matrix `df` is built (main.py lines
419-499): stop on an empty matrix; pre-download task datasets; return if
`download_only`; query the queue and stop when no capacity remains; otherwise
create the run directory, persist the matrix, render and persist the sbatch
script, and invoke `sbatch`, logging (not raising) either failure mode. -/
def afterMatrix (env : SchedEnv) (downloadOnly : Bool) (df : List Row) : SchedResult :=
  if df.isEmpty then
    { resolutionPerformed := true }
  else if downloadOnly then
    { resolutionPerformed := true, preDownloaded := true }
  else if env.queueLimit - env.queueLoad ≤ 0 then
    { resolutionPerformed := true, preDownloaded := true, queueQueried := true }
  else
    { resolutionPerformed := true, preDownloaded := true, queueQueried := true,
      runDirCreated := true, savedCsv := some df, sbatchScriptWritten := true,
      sbatchInvoked := true,
      submissionLoggedError := decide (env.sbatchOutcome ≠ SbatchOutcome.ok),
      submissionLoggedSuccess := decide (env.sbatchOutcome = SbatchOutcome.ok) }

/-- Explicit-table mode matrix (main.py lines 386-398): resolve the unique
model paths of the table, then expand each row in place, one output row per
resolved path for that row's model value. -/
def explicitMatrix (fs : Fs) (rows : List Row) : Except String (List Row) :=
  match process_model_paths fs (uniqueFirst (rows.map (fun r => r.model_path))) with
  | Except.error e => Except.error e
  | Except.ok (mapping, _) =>
    Except.ok (rows.flatMap (fun r =>
      match mapping.lookup r.model_path with
      | some paths => paths.map (fun p => { r with model_path := p })
      | none => []))

/-- Generative mode matrix (main.py lines 400-413): resolve every reference
in `models.split(",")`, flatten the mapping's values, and form the cross
product with the task list and the shot list in `itertools.product` order. -/
def generativeMatrix (fs : Fs) (models tasks : String) (ns : NShot) :
    Except String (List Row) :=
  match process_model_paths fs (splitChar ',' models) with
  | Except.error e => Except.error e
  | Except.ok (mapping, _) =>
    Except.ok ((mapping.flatMap (fun kv => kv.2)).flatMap (fun p =>
      (splitChar ',' tasks).flatMap (fun t =>
        ns.toShotList.map (fun s => { model_path := p, task_path := t, n_shot := s }))))

/-- Embedding of `schedule_evals` from the input-mode dispatch on
(main.py lines 374-499).  The explicit-table mode is entered when
`eval_csv_path` is truthy and raises when any of `models`, `tasks`, `n_shot`
is truthy; the generative mode is entered when `models` and `tasks` are
truthy and `n_shot` is not `None`; otherwise the missing-arguments error is
raised. -/
def schedule_evals (env : SchedEnv) (a : SchedArgs) : SchedResult :=
  if optStrTruthy a.eval_csv_path then
    if optStrTruthy a.models || optStrTruthy a.tasks || optNShotTruthy a.n_shot then
      errResult SchedError.exclusiveArgs false
    else if !env.csv.hasRequiredCols then
      errResult SchedError.missingCsvCols false
    else
      match explicitMatrix env.fs env.csv.rows with
      | Except.error e => errResult (SchedError.downloadError e) true
      | Except.ok df => afterMatrix env a.download_only df
  else
    match a.models, a.tasks, a.n_shot with
    | some ms, some ts, some ns =>
      if !ms.isEmpty && !ts.isEmpty then
        match generativeMatrix env.fs ms ts ns with
        | Except.error e => errResult (SchedError.downloadError e) true
        | Except.ok df => afterMatrix env a.download_only df
      else
        errResult SchedError.missingArgs false
    | _, _, _ => errResult SchedError.missingArgs false

/-! Concrete test fixtures. -/

/-- Local checkpoint-tree reference that resolves to two checkpoints. -/
def mA : String := "/models/A"

/-- Local directory reference that resolves to zero checkpoints. -/
def mB : String := "/models/B"

/-- Nested checkpoint location of `mA`. -/
def mAhf : String := "/models/A/hf"

/-- First resolved checkpoint of `mA`. -/
def iter1 : String := "/models/A/hf/iter_1"

/-- Second resolved checkpoint of `mA`. -/
def iter2 : String := "/models/A/hf/iter_2"

/-- Remote reference with a revision modifier whose download fails. -/
def bRev : String := "B,revision=main"

/-- Remote reference without modifiers whose download fails. -/
def orgName : String := "org/name"

/-- First task name. -/
def taskT1 : String := "T1"

/-- Second task name. -/
def taskT2 : String := "T2"

/-- Comma-joined task selector. -/
def tasksTT : String := "T1,T2"

/-- Comma-joined model selector naming `mA` and `mB`. -/
def modelsAB : String := "/models/A,/models/B"

/-- An explicit-table path argument. -/
def csvName : String := "jobs.csv"

/-- Concrete file-system oracle: `mA` is a directory with no direct weight
files whose `hf` subdirectory holds two checkpoint directories; `mB` is a
directory resolving to nothing; every remote download fails. -/
def fs1 : Fs where
  isDir := fun p => p == mA || p == mB || p == iter1 || p == iter2
  hasSafetensors := fun p => p == iter1 || p == iter2
  subdirs := fun p => if p == mAhf then [iter1, iter2] else []
  downloadOk := fun _ => false

/-- The eight-row generative matrix for `mA` with tasks `T1,T2` and shots
`[0, 5]`. -/
def df1 : List Row :=
  [⟨iter1, taskT1, 0⟩, ⟨iter1, taskT1, 5⟩, ⟨iter1, taskT2, 0⟩, ⟨iter1, taskT2, 5⟩,
   ⟨iter2, taskT1, 0⟩, ⟨iter2, taskT1, 5⟩, ⟨iter2, taskT2, 0⟩, ⟨iter2, taskT2, 5⟩]

/-- Concrete scheduling environment with free queue capacity and a
one-row explicit table over `mA`. -/
def env1 : SchedEnv where
  fs := fs1
  csv := { hasRequiredCols := true, rows := [⟨mA, taskT1, 5⟩] }
  queueLimit := 250
  queueLoad := 0
  sbatchOutcome := SbatchOutcome.ok

/-- Variant of `env1` whose `sbatch` invocation exits non-zero. -/
def env2 : SchedEnv :=
  { env1 with sbatchOutcome := SbatchOutcome.calledProcessError }

/-- Variant of `env1` whose `sbatch` binary is absent. -/
def env3 : SchedEnv :=
  { env1 with sbatchOutcome := SbatchOutcome.fileNotFound }

/-- Expansion of the one-row explicit table of `env1` through the resolver. -/
def df2 : List Row :=
  [⟨iter1, taskT1, 5⟩, ⟨iter2, taskT1, 5⟩]

/-- Stem of a destination image path. -/
def sifStemStr : String := "eval_env.sif"

/-- World of a process whose destination is absent and whose fetch
succeeds. -/
def wFetchOk : EnsureWorld :=
  ⟨false, false, FetchOutcome.ok, BuildOutcome.ok⟩

/-! Theorems. -/

/-- C4: when the destination path does not already exist, any failure of the
fetch stage is never propagated and the build stage is always attempted; if
the build also fails, the failure propagates, the temporary build file is
deleted, and the destination is left absent. -/
theorem c4_fetch_error_then_build (w : EnsureWorld)
    (hdest : w.destExists = false) (hfetch : w.fetch ≠ FetchOutcome.ok) :
    (ensure_singularity_image w).buildAttempted = true ∧
    (w.build = BuildOutcome.ok →
      (ensure_singularity_image w).raised = false ∧
      (ensure_singularity_image w).destPresent = true) ∧
    (w.build = BuildOutcome.fail →
      (ensure_singularity_image w).raised = true ∧
      (ensure_singularity_image w).destPresent = false ∧
      (ensure_singularity_image w).buildTmpLeft = false) := by
  obtain ⟨de, fo, fe, bu⟩ := w
  simp only at hdest hfetch
  subst hdest
  cases fe <;> cases bu <;> simp_all [ensure_singularity_image]

/-- Witness for c4_fetch_error_then_build: destination absent, Hub download
raises its download error, the local build exits non-zero. -/
theorem c4_fetch_error_then_build_witness :
    (ensure_singularity_image ⟨false, false, FetchOutcome.hubError, BuildOutcome.fail⟩).buildAttempted = true ∧
    (BuildOutcome.fail = BuildOutcome.ok →
      (ensure_singularity_image ⟨false, false, FetchOutcome.hubError, BuildOutcome.fail⟩).raised = false ∧
      (ensure_singularity_image ⟨false, false, FetchOutcome.hubError, BuildOutcome.fail⟩).destPresent = true) ∧
    (BuildOutcome.fail = BuildOutcome.fail →
      (ensure_singularity_image ⟨false, false, FetchOutcome.hubError, BuildOutcome.fail⟩).raised = true ∧
      (ensure_singularity_image ⟨false, false, FetchOutcome.hubError, BuildOutcome.fail⟩).destPresent = false ∧
      (ensure_singularity_image ⟨false, false, FetchOutcome.hubError, BuildOutcome.fail⟩).buildTmpLeft = false) :=
  c4_fetch_error_then_build ⟨false, false, FetchOutcome.hubError, BuildOutcome.fail⟩ rfl (by decide)

/-- C5: when the destination path already exists (and force is off) the call
returns immediately with no fetch and no build attempted, and a second
sequential call on the then-present artifact likewise performs no fetch and
no build. -/
theorem c5_existing_dest_skips_work (w w₂ : EnsureWorld)
    (h : w.destExists = true) (hf : w.force = false) (hf₂ : w₂.force = false) :
    (ensure_singularity_image w).fetchAttempted = false ∧
    (ensure_singularity_image w).buildAttempted = false ∧
    (ensure_singularity_image w).raised = false ∧
    (ensure_singularity_image w).destPresent = true ∧
    (ensure_singularity_image
      { w₂ with destExists := (ensure_singularity_image w).destPresent }).fetchAttempted = false ∧
    (ensure_singularity_image
      { w₂ with destExists := (ensure_singularity_image w).destPresent }).buildAttempted = false := by
  have h1 : ensure_singularity_image w =
      { raised := false, destPresent := true, fetchAttempted := false,
        buildAttempted := false, buildTmpLeft := false, fetchTmpLeft := false,
        installedViaRename := false } := by
    simp [ensure_singularity_image, h, hf]
  rw [h1]
  refine ⟨rfl, rfl, rfl, rfl, ?_, ?_⟩ <;>
    simp [ensure_singularity_image, hf₂]

/-- Witness for c5_existing_dest_skips_work at two concrete worlds whose
destination exists. -/
theorem c5_existing_dest_skips_work_witness :
    (ensure_singularity_image ⟨true, false, FetchOutcome.ok, BuildOutcome.ok⟩).fetchAttempted = false ∧
    (ensure_singularity_image ⟨true, false, FetchOutcome.ok, BuildOutcome.ok⟩).buildAttempted = false ∧
    (ensure_singularity_image ⟨true, false, FetchOutcome.ok, BuildOutcome.ok⟩).raised = false ∧
    (ensure_singularity_image ⟨true, false, FetchOutcome.ok, BuildOutcome.ok⟩).destPresent = true ∧
    (ensure_singularity_image
      { (⟨true, false, FetchOutcome.hubError, BuildOutcome.fail⟩ : EnsureWorld) with
        destExists := (ensure_singularity_image ⟨true, false, FetchOutcome.ok, BuildOutcome.ok⟩).destPresent }).fetchAttempted = false ∧
    (ensure_singularity_image
      { (⟨true, false, FetchOutcome.hubError, BuildOutcome.fail⟩ : EnsureWorld) with
        destExists := (ensure_singularity_image ⟨true, false, FetchOutcome.ok, BuildOutcome.ok⟩).destPresent }).buildAttempted = false :=
  c5_existing_dest_skips_work ⟨true, false, FetchOutcome.ok, BuildOutcome.ok⟩
    ⟨true, false, FetchOutcome.hubError, BuildOutcome.fail⟩ rfl rfl rfl

/-- C9 counterexample: two distinct concurrent processes (distinct fresh
temporary-name tokens 0 and 1) whose fetch succeeds both write the artifact
into the same temporary file, the one obtained from the destination path by
replacing its suffix with .tmp — the temporary files are not distinct. -/
theorem c9_counterexample :
    installTmpUsed wFetchOk sifStemStr 0 = some (TmpName.fetchTmp sifStemStr) ∧
    installTmpUsed wFetchOk sifStemStr 1 = some (TmpName.fetchTmp sifStemStr) ∧
    (0 : Nat) ≠ 1 := by
  refine ⟨rfl, rfl, by decide⟩

/-- C9 amended: processes that take the build path write into temporary
files distinct from every other build-path process's temporary file, and
whenever a call installs the artifact at a previously absent destination it
does so by atomically renaming a fully written temporary file into place. -/
theorem c9_build_tmp_distinct_amended (w₁ w₂ w₃ : EnsureWorld) (stem : String)
    (f₁ f₂ : Nat) (t₁ t₂ : TmpName)
    (hf : f₁ ≠ f₂)
    (h₁ : w₁.fetch ≠ FetchOutcome.ok) (h₂ : w₂.fetch ≠ FetchOutcome.ok)
    (ht₁ : installTmpUsed w₁ stem f₁ = some t₁)
    (ht₂ : installTmpUsed w₂ stem f₂ = some t₂)
    (h₃p : (ensure_singularity_image w₃).destPresent = true)
    (h₃e : w₃.destExists = false) :
    t₁ ≠ t₂ ∧ (ensure_singularity_image w₃).installedViaRename = true := by
  constructor
  · have e₁ : t₁ = TmpName.buildTmp f₁ := by
      obtain ⟨de, fo, fe, bu⟩ := w₁
      simp only at h₁
      cases de <;> cases fo <;> cases fe <;> cases bu <;>
        simp_all [installTmpUsed]
    have e₂ : t₂ = TmpName.buildTmp f₂ := by
      obtain ⟨de, fo, fe, bu⟩ := w₂
      simp only at h₂
      cases de <;> cases fo <;> cases fe <;> cases bu <;>
        simp_all [installTmpUsed]
    rw [e₁, e₂]
    simp [hf]
  · obtain ⟨de, fo, fe, bu⟩ := w₃
    simp only at h₃p h₃e
    subst h₃e
    cases fe <;> cases bu <;> simp_all [ensure_singularity_image]

/-- Witness for c9_build_tmp_distinct_amended: two fetch-failing processes
with fresh tokens 0 and 1, and a third process that installs at an absent
destination. -/
theorem c9_build_tmp_distinct_amended_witness :
    TmpName.buildTmp 0 ≠ TmpName.buildTmp 1 ∧
    (ensure_singularity_image wFetchOk).installedViaRename = true :=
  c9_build_tmp_distinct_amended
    ⟨false, false, FetchOutcome.hubError, BuildOutcome.ok⟩
    ⟨false, false, FetchOutcome.otherError false, BuildOutcome.ok⟩
    wFetchOk sifStemStr 0 1 (TmpName.buildTmp 0) (TmpName.buildTmp 1)
    (by decide) (by decide) (by decide) rfl rfl rfl rfl

/-- C1 (code evaluated at the claim's failing input): with one reference
resolving to two checkpoints and one reference resolving to zero, two tasks
and two shot values, the generative matrix has 16 rows, not the
2 x 2 x 2 = 8 the claim states — every reference's mapping entry aliases the
shared accumulator holding all resolved paths, so the two checkpoints are
counted once per input reference. -/
theorem c1_generative_row_count_eval :
    (generativeMatrix fs1 modelsAB tasksTT (NShot.ofList [0, 5])).map List.length =
      Except.ok 16 := by
  decide

/-- C2 (code evaluated at the claim's failing input): resolving a reference
with two checkpoints followed by a reference with zero resolved entries maps
BOTH references to the same two checkpoint paths and emits no warning for
the unresolved reference — the dictionary values are one shared list, not
the per-reference resolution results. -/
theorem c2_resolver_mapping_eval :
    process_model_paths fs1 [mA, bRev] =
      Except.ok ([(mA, [iter1, iter2]), (bRev, [iter1, iter2])], []) := by
  decide

/-- C3 counterexample: for a remote-identifier reference without key=value
modifiers whose download fails, the download exception propagates out of the
resolver instead of being logged and yielding zero entries — the branch for
references without a modifier delimiter has no exception handler. -/
theorem c3_counterexample :
    process_model_paths fs1 [orgName] = Except.error orgName := by
  decide

/-- C3 amended: for a remote-identifier reference that contains key=value
modifiers, a download failure is caught, the reference appends zero resolved
entries, and resolution of the remaining references still completes; for a
remote identifier without modifiers, a download failure propagates out of
the resolver. -/
theorem c3_download_failure_amended (fs : Fs) (m : String) (rest : List String)
    (mm : String) (rest₂ : List String)
    (hc : hasComma m = true) (hd : fs.isDir m = false)
    (hfail : fs.downloadOk m = false)
    (hd₂ : fs.isDir mm = false) (hc₂ : hasComma mm = false)
    (hfail₂ : fs.downloadOk mm = false) :
    contribExc fs m = Except.ok [] ∧
    exOk (process_model_paths fs (m :: rest)) = exOk (process_model_paths fs rest) ∧
    process_model_paths fs (mm :: rest₂) = Except.error mm := by
  have h1 : contribExc fs m = Except.ok [] := by
    simp [contribExc, hd, hc, hfail]
  refine ⟨h1, ?_, ?_⟩
  · cases h : pmpGo fs rest [] with
    | error e =>
      simp [process_model_paths, pmpGo, h1, h, exOk]
    | ok p =>
      obtain ⟨accF, warns⟩ := p
      simp [process_model_paths, pmpGo, h1, h, exOk]
  · have h2 : contribExc fs mm = Except.error mm := by
      simp [contribExc, hd₂, hc₂, hfail₂]
    simp [process_model_paths, pmpGo, h2]

/-- Witness for c3_download_failure_amended: the modifier-bearing failing
reference followed by a resolvable local reference, and the modifier-free
failing reference. -/
theorem c3_download_failure_amended_witness :
    contribExc fs1 bRev = Except.ok [] ∧
    exOk (process_model_paths fs1 (bRev :: [mA])) = exOk (process_model_paths fs1 [mA]) ∧
    process_model_paths fs1 (orgName :: []) = Except.error orgName :=
  c3_download_failure_amended fs1 bRev [mA] orgName []
    (by decide) (by decide) (by decide) (by decide) (by decide) (by decide)

/-- Reduction of `schedule_evals` in generative mode: with no explicit table,
non-empty model and task selectors, a supplied shot argument, and a
successfully built matrix, the invocation continues with that matrix. -/
theorem schedule_evals_generative (env : SchedEnv) (ms ts : String) (ns : NShot)
    (dl : Bool) (df : List Row)
    (hm : ms.isEmpty = false) (ht : ts.isEmpty = false)
    (hdf : generativeMatrix env.fs ms ts ns = Except.ok df) :
    schedule_evals env
      { models := some ms, tasks := some ts, n_shot := some ns,
        eval_csv_path := none, download_only := dl } =
      afterMatrix env dl df := by
  simp [schedule_evals, optStrTruthy, hm, ht, hdf]

/-- Reduction of `schedule_evals` in explicit-table mode: with a non-empty
table path, no selector arguments, the required columns present, and a
successfully expanded table, the invocation continues with that matrix. -/
theorem schedule_evals_explicit (env : SchedEnv) (p : String) (dl : Bool) (df : List Row)
    (hp : p.isEmpty = false) (hcols : env.csv.hasRequiredCols = true)
    (hdf : explicitMatrix env.fs env.csv.rows = Except.ok df) :
    schedule_evals env
      { models := none, tasks := none, n_shot := none,
        eval_csv_path := some p, download_only := dl } =
      afterMatrix env dl df := by
  simp [schedule_evals, optStrTruthy, optNShotTruthy, hp, hcols, hdf]

/-- C6 (code evaluated at the claim's failing input): supplying an explicit
evaluation table together with a shot count of 0 does NOT raise a
configuration error — the Python truthiness test treats n_shot equal to 0 as
absent, so the invocation silently proceeds in explicit-table mode and model
resolution occurs. -/
theorem c6_zero_shot_not_rejected_eval :
    (schedule_evals env1
      { models := none, tasks := none, n_shot := some (NShot.single 0),
        eval_csv_path := some csvName, download_only := false }).error = none ∧
    (schedule_evals env1
      { models := none, tasks := none, n_shot := some (NShot.single 0),
        eval_csv_path := some csvName, download_only := false }).resolutionPerformed = true := by
  decide

/-- C7: the remaining budget is the ceiling minus the occupied count; when it
is non-positive the run stops with no run directory, no persisted table, no
rendered script and no submission, and when it is positive the whole matrix
is persisted and submitted with no row-level truncation, whatever its row
count. -/
theorem c7_capacity_decision (env : SchedEnv) (ms ts : String) (ns : NShot) (df : List Row)
    (hm : ms.isEmpty = false) (ht : ts.isEmpty = false)
    (hdf : generativeMatrix env.fs ms ts ns = Except.ok df)
    (hne : df.isEmpty = false) :
    (env.queueLimit - env.queueLoad ≤ 0 →
      (schedule_evals env
        { models := some ms, tasks := some ts, n_shot := some ns,
          eval_csv_path := none, download_only := false }).runDirCreated = false ∧
      (schedule_evals env
        { models := some ms, tasks := some ts, n_shot := some ns,
          eval_csv_path := none, download_only := false }).savedCsv = none ∧
      (schedule_evals env
        { models := some ms, tasks := some ts, n_shot := some ns,
          eval_csv_path := none, download_only := false }).sbatchScriptWritten = false ∧
      (schedule_evals env
        { models := some ms, tasks := some ts, n_shot := some ns,
          eval_csv_path := none, download_only := false }).sbatchInvoked = false) ∧
    (0 < env.queueLimit - env.queueLoad →
      (schedule_evals env
        { models := some ms, tasks := some ts, n_shot := some ns,
          eval_csv_path := none, download_only := false }).savedCsv = some df ∧
      (schedule_evals env
        { models := some ms, tasks := some ts, n_shot := some ns,
          eval_csv_path := none, download_only := false }).sbatchInvoked = true) := by
  rw [schedule_evals_generative env ms ts ns false df hm ht hdf]
  constructor
  · intro hle
    simp [afterMatrix, hne, hle]
  · intro hgt
    have hnle : ¬ (env.queueLimit - env.queueLoad ≤ 0) := by omega
    simp [afterMatrix, hne, hnle]

/-- Witness for c7_capacity_decision at the concrete environment env1 with
the eight-row matrix df1. -/
theorem c7_capacity_decision_witness :
    (env1.queueLimit - env1.queueLoad ≤ 0 →
      (schedule_evals env1
        { models := some mA, tasks := some tasksTT, n_shot := some (NShot.ofList [0, 5]),
          eval_csv_path := none, download_only := false }).runDirCreated = false ∧
      (schedule_evals env1
        { models := some mA, tasks := some tasksTT, n_shot := some (NShot.ofList [0, 5]),
          eval_csv_path := none, download_only := false }).savedCsv = none ∧
      (schedule_evals env1
        { models := some mA, tasks := some tasksTT, n_shot := some (NShot.ofList [0, 5]),
          eval_csv_path := none, download_only := false }).sbatchScriptWritten = false ∧
      (schedule_evals env1
        { models := some mA, tasks := some tasksTT, n_shot := some (NShot.ofList [0, 5]),
          eval_csv_path := none, download_only := false }).sbatchInvoked = false) ∧
    (0 < env1.queueLimit - env1.queueLoad →
      (schedule_evals env1
        { models := some mA, tasks := some tasksTT, n_shot := some (NShot.ofList [0, 5]),
          eval_csv_path := none, download_only := false }).savedCsv = some df1 ∧
      (schedule_evals env1
        { models := some mA, tasks := some tasksTT, n_shot := some (NShot.ofList [0, 5]),
          eval_csv_path := none, download_only := false }).sbatchInvoked = true) :=
  c7_capacity_decision env1 mA tasksTT (NShot.ofList [0, 5]) df1
    (by decide) (by decide) (by decide) (by decide)

/-- C8: when the submission attempt fails — the sbatch binary being absent
or the backend rejecting with a non-zero exit — the failure is reported as
an error without raising out of the scheduler, and the persisted run
artifacts (run directory, matrix table, rendered submission script) remain
on disk. -/
theorem c8_submission_failure_keeps_artifacts (env : SchedEnv) (ms ts : String)
    (ns : NShot) (df : List Row)
    (hm : ms.isEmpty = false) (ht : ts.isEmpty = false)
    (hdf : generativeMatrix env.fs ms ts ns = Except.ok df)
    (hne : df.isEmpty = false)
    (hcap : 0 < env.queueLimit - env.queueLoad)
    (hout : env.sbatchOutcome = SbatchOutcome.calledProcessError ∨
            env.sbatchOutcome = SbatchOutcome.fileNotFound) :
    (schedule_evals env
      { models := some ms, tasks := some ts, n_shot := some ns,
        eval_csv_path := none, download_only := false }).error = none ∧
    (schedule_evals env
      { models := some ms, tasks := some ts, n_shot := some ns,
        eval_csv_path := none, download_only := false }).submissionLoggedError = true ∧
    (schedule_evals env
      { models := some ms, tasks := some ts, n_shot := some ns,
        eval_csv_path := none, download_only := false }).runDirCreated = true ∧
    (schedule_evals env
      { models := some ms, tasks := some ts, n_shot := some ns,
        eval_csv_path := none, download_only := false }).savedCsv = some df ∧
    (schedule_evals env
      { models := some ms, tasks := some ts, n_shot := some ns,
        eval_csv_path := none, download_only := false }).sbatchScriptWritten = true := by
  rw [schedule_evals_generative env ms ts ns false df hm ht hdf]
  have hnle : ¬ (env.queueLimit - env.queueLoad ≤ 0) := by omega
  rcases hout with h | h <;> simp [afterMatrix, hne, hnle, h]

/-- Witness for c8_submission_failure_keeps_artifacts at env2, whose sbatch
invocation exits non-zero. -/
theorem c8_submission_failure_keeps_artifacts_witness :
    (schedule_evals env2
      { models := some mA, tasks := some tasksTT, n_shot := some (NShot.ofList [0, 5]),
        eval_csv_path := none, download_only := false }).error = none ∧
    (schedule_evals env2
      { models := some mA, tasks := some tasksTT, n_shot := some (NShot.ofList [0, 5]),
        eval_csv_path := none, download_only := false }).submissionLoggedError = true ∧
    (schedule_evals env2
      { models := some mA, tasks := some tasksTT, n_shot := some (NShot.ofList [0, 5]),
        eval_csv_path := none, download_only := false }).runDirCreated = true ∧
    (schedule_evals env2
      { models := some mA, tasks := some tasksTT, n_shot := some (NShot.ofList [0, 5]),
        eval_csv_path := none, download_only := false }).savedCsv = some df1 ∧
    (schedule_evals env2
      { models := some mA, tasks := some tasksTT, n_shot := some (NShot.ofList [0, 5]),
        eval_csv_path := none, download_only := false }).sbatchScriptWritten = true :=
  c8_submission_failure_keeps_artifacts env2 mA tasksTT (NShot.ofList [0, 5]) df1
    (by decide) (by decide) (by decide) (by decide) (by decide) (Or.inl (by decide))

/-- C10: with download_only set and a non-empty matrix, in either input
mode, the invocation pre-downloads and then returns: no queue query, no run
directory, no persisted table, no rendered script, no submission, no
error. -/
theorem c10_download_only_stops_after_downloads (env : SchedEnv) (ms ts : String)
    (ns : NShot) (p : String) (dfg dfe : List Row)
    (hm : ms.isEmpty = false) (ht : ts.isEmpty = false)
    (hdfg : generativeMatrix env.fs ms ts ns = Except.ok dfg)
    (hneg : dfg.isEmpty = false)
    (hp : p.isEmpty = false) (hcols : env.csv.hasRequiredCols = true)
    (hdfe : explicitMatrix env.fs env.csv.rows = Except.ok dfe)
    (hnee : dfe.isEmpty = false) :
    (schedule_evals env
      { models := some ms, tasks := some ts, n_shot := some ns,
        eval_csv_path := none, download_only := true }) =
      { resolutionPerformed := true, preDownloaded := true } ∧
    (schedule_evals env
      { models := none, tasks := none, n_shot := none,
        eval_csv_path := some p, download_only := true }) =
      { resolutionPerformed := true, preDownloaded := true } := by
  rw [schedule_evals_generative env ms ts ns true dfg hm ht hdfg,
    schedule_evals_explicit env p true dfe hp hcols hdfe]
  constructor <;> simp [afterMatrix, hneg, hnee]

/-- Witness for c10_download_only_stops_after_downloads at env1 with the
generative matrix df1 and the expanded explicit table df2. -/
theorem c10_download_only_stops_after_downloads_witness :
    (schedule_evals env1
      { models := some mA, tasks := some tasksTT, n_shot := some (NShot.ofList [0, 5]),
        eval_csv_path := none, download_only := true }) =
      { resolutionPerformed := true, preDownloaded := true } ∧
    (schedule_evals env1
      { models := none, tasks := none, n_shot := none,
        eval_csv_path := some csvName, download_only := true }) =
      { resolutionPerformed := true, preDownloaded := true } :=
  c10_download_only_stops_after_downloads env1 mA tasksTT (NShot.ofList [0, 5])
    csvName df1 df2 (by decide) (by decide) (by decide) (by decide)
    (by decide) (by decide) (by decide) (by decide)

end Oellm
